import Mathlib

/-!
Verification of the shell-formatter plugin runtime core: the dependency-injection
container (`src/di/container.ts`), the publish/subscribe message bus
(`src/utils/plugin/MessageBus.ts`) and the plugin lifecycle manager
(`src/utils/plugin/PluginManager.ts`).

Each TypeScript class is shallowly embedded as a Lean structure holding its
mutable fields, and each method as a state-passing function.  JavaScript object
identity is modelled by allocating fresh natural-number ids from a counter
(`nextId`): two resolves return "the same object reference" exactly when they
return the same id.  A thrown exception is modelled by `Except.error`; since a
`finally` block runs before an exception propagates, state-mutating methods
return the post-call state alongside the `Except` outcome.
-/

/-- Decidable equality for `Except`, so that concrete runs can be settled by `decide`. -/
instance {ε α : Type} [DecidableEq ε] [DecidableEq α] : DecidableEq (Except ε α) := fun a b =>
  match a, b with
  | .ok x, .ok y =>
      if h : x = y then .isTrue (by rw [h]) else .isFalse (by simp [h])
  | .error x, .error y =>
      if h : x = y then .isTrue (by rw [h]) else .isFalse (by simp [h])
  | .ok _, .error _ => .isFalse (by simp)
  | .error _, .ok _ => .isFalse (by simp)

/-! ## Service container (`src/di/container.ts`)

A factory in the source is an opaque closure `() => instance`.  For the claims
we model the two behaviours a factory can exhibit that the container observes:
it may recursively call `container.resolve` on other names, and it finally
constructs and returns a fresh object.  So a factory is embedded as the list of
names it resolves, in order, before allocating a fresh object id. -/

/-- Embedded factory closure: the `resolve` calls it performs, in order. -/
structure ServiceFactory where
  calls : List String
deriving DecidableEq, Repr

/-- `ServiceMetadata` of `container.ts`.  The source record has no lifetime
field: `registerSingleton` and `registerTransient` both store
`instantiated: false`.  (`instance` is a Lean keyword, hence field `inst`.) -/
structure ServiceMetadata where
  factory : ServiceFactory
  instantiated : Bool
  inst : Option Nat
  dependencies : List String
deriving DecidableEq, Repr

/-- The `DIContainer` state: the `services` map (insertion-ordered association
list, like a JS `Map`), the `creatingStack` (a JS `Set`, iterated in insertion
order when the cycle message is built), and the fresh-object allocator that
models the JS heap. -/
structure DIContainer where
  services : List (String × ServiceMetadata)
  creatingStack : List String
  nextId : Nat
deriving DecidableEq, Repr

namespace DIContainer

/-- The empty container `new DIContainer()`. -/
def empty : DIContainer := { services := [], creatingStack := [], nextId := 0 }

/-- `Map.get(name)`. -/
def lookupService : List (String × ServiceMetadata) → String → Option ServiceMetadata
  | [], _ => none
  | (k, v) :: rest, name => if k = name then some v else lookupService rest name

/-- `Map.set(name, metadata)`: overwrite in place if present, else append. -/
def setService : List (String × ServiceMetadata) → String → ServiceMetadata →
    List (String × ServiceMetadata)
  | [], name, md => [(name, md)]
  | (k, v) :: rest, name, md =>
      if k = name then (name, md) :: rest else (k, v) :: setService rest name md

/-- `registerSingleton(name, factory, dependencies = [])` (logging dropped). -/
def registerSingleton (c : DIContainer) (name : String) (factory : ServiceFactory)
    (dependencies : List String := []) : DIContainer :=
  let md : ServiceMetadata :=
    { factory := factory, instantiated := false, inst := none, dependencies := dependencies }
  { c with services := setService c.services name md }

/-- `registerTransient(name, factory, dependencies = [])`.  Its body is
identical to `registerSingleton`'s: the source likewise stores
`instantiated: false` and differs only in comments and log text. -/
def registerTransient (c : DIContainer) (name : String) (factory : ServiceFactory)
    (dependencies : List String := []) : DIContainer :=
  let md : ServiceMetadata :=
    { factory := factory, instantiated := false, inst := none, dependencies := dependencies }
  { c with services := setService c.services name md }

/-- The errors `resolve` can throw, plus fuel exhaustion of the embedding. -/
inductive ResolveError where
  | notRegistered (name : String)
  | circularDependency (msg : String)
  | outOfFuel
deriving DecidableEq, Repr

/-- The message of the circular-dependency error:
`Array.from(this.creatingStack).concat([name]).join(" -> ")`. -/
def cycleMsg (stack : List String) (name : String) : String :=
  "Circular dependency detected: " ++ String.intercalate " -> " (stack ++ [name])

/-- Runs the body of a factory: `resolve` each recorded call in order; the
first exception propagates (factories install no handler). -/
def runCalls (res : String → DIContainer → DIContainer × Except ResolveError Nat) :
    List String → DIContainer → DIContainer × Except ResolveError Unit
  | [], c => (c, .ok ())
  | d :: ds, c =>
      match res d c with
      | (c1, .ok _) => runCalls res ds c1
      | (c1, .error e) => (c1, .error e)

/-- `resolve<T>(name)`, fuelled to bound the factory recursion depth.
Mirrors the source line by line: unknown-name check, circular check against
`creatingStack`, cached-singleton fast path, then `creatingStack.add(name)`,
`service.factory()`, caching when `service.instantiated === false`, and the
`finally { this.creatingStack.delete(name) }` which runs on both exits. -/
def resolveFuel : Nat → String → DIContainer → DIContainer × Except ResolveError Nat
  | 0, _, c => (c, .error .outOfFuel)
  | fuel + 1, name, c =>
      match lookupService c.services name with
      | none => (c, .error (.notRegistered name))
      | some service =>
          if name ∈ c.creatingStack then
            (c, .error (.circularDependency (cycleMsg c.creatingStack name)))
          else
            match service.inst, service.instantiated with
            | some v, true => (c, .ok v)
            | some _, false =>
                constructNew (resolveFuel fuel) name service c
            | none, _ =>
                constructNew (resolveFuel fuel) name service c
where
  /-- The `try { ... } finally { ... }` construction block of `resolve`. -/
  constructNew (res : String → DIContainer → DIContainer × Except ResolveError Nat)
      (name : String) (service : ServiceMetadata) (c : DIContainer) :
      DIContainer × Except ResolveError Nat :=
    let c1 := { c with creatingStack := c.creatingStack ++ [name] }
    match runCalls res service.factory.calls c1 with
    | (c2, .error e) =>
        ({ c2 with creatingStack := c2.creatingStack.erase name }, .error e)
    | (c2, .ok _) =>
        let v := c2.nextId
        let c3 := { c2 with nextId := c2.nextId + 1 }
        let cached : ServiceMetadata := { service with instantiated := true, inst := some v }
        let c4 :=
          if service.instantiated = false then
            { c3 with services := setService c3.services name cached }
          else c3
        ({ c4 with creatingStack := c4.creatingStack.erase name }, .ok v)

end DIContainer
namespace DIContainer

/-- The container of the C1 failing input: one transient registration `"t"`
whose factory resolves nothing and returns a fresh object. -/
def transientDemo : DIContainer := registerTransient empty "t" ⟨[]⟩

/-- The container of the C7 scenario: services `"A"` and `"B"` whose factories
resolve each other. -/
def circularDemo : DIContainer :=
  registerSingleton (registerSingleton empty "B" ⟨["A"]⟩) "A" ⟨["B"]⟩

end DIContainer
/-! ## Message bus (`src/utils/plugin/MessageBus.ts`)

The claims quantify over the subscriptions of a single message type, so the bus
is embedded as the subscription array `this.subscriptions.get(type)` for the
published type, plus the id counter.  A handler and a filter are opaque
closures; the bus observes of them only: whether the filter exists and whether
it returns `true`, returns `false`, or throws; and whether the handler (raced
against the optional timeout) completes or fails (throw or timeout).  A
subscription's optional `errorHandler` never influences bus state — its own
exception is caught and logged — so it is not modelled. -/

/-- What a subscription's `filter(message)` call does for the published message. -/
inductive FilterBehavior where
  | accepts
  | rejects
  | throws
deriving DecidableEq, Repr

/-- Whether the subscriber's handler completes or fails (throws, or exceeds a
configured `handlerTimeout`, which the delivery loop treats identically). -/
inductive HandlerBehavior where
  | succeeds
  | fails
deriving DecidableEq, Repr

/-- One `MessageSubscription` record: the numeric part of the generated id
`sub_<n>`, and the `options` fields the delivery loop reads. -/
structure MessageSubscription where
  id : Nat
  priority : Int
  once : Bool
  filter : Option FilterBehavior
  handler : HandlerBehavior
deriving DecidableEq, Repr

/-- The `MessageBus` state restricted to one message type. -/
structure MessageBus where
  subs : List MessageSubscription
  subscriptionIdCounter : Nat
deriving DecidableEq, Repr

namespace MessageBus

/-- `new MessageBus()`. -/
def empty : MessageBus := { subs := [], subscriptionIdCounter := 0 }

/-- `subscribe(type, handler, options)`: assign id `sub_<counter>`, bump the
counter, append to the type's subscription array.  Option defaults are those
of the source (`once: false, priority: 0`). -/
def subscribe (b : MessageBus) (handler : HandlerBehavior) (once : Bool := false)
    (priority : Int := 0) (filter : Option FilterBehavior := none) : MessageBus × Nat :=
  let s : MessageSubscription :=
    { id := b.subscriptionIdCounter, priority := priority, once := once,
      filter := filter, handler := handler }
  ({ subs := b.subs ++ [s], subscriptionIdCounter := b.subscriptionIdCounter + 1 },
    b.subscriptionIdCounter)

/-- `once(type, handler, options)`: sugar for `subscribe` with `once: true`. -/
def subscribeOnce (b : MessageBus) (handler : HandlerBehavior) (priority : Int := 0)
    (filter : Option FilterBehavior := none) : MessageBus × Nat :=
  subscribe b handler true priority filter

/-- `unsubscribe(subscriptionId)` restricted to one type's array: splice out
the first subscription with the given id. -/
def unsubscribeFirst : List MessageSubscription → Nat → List MessageSubscription
  | [], _ => []
  | s :: rest, i => if s.id = i then rest else s :: unsubscribeFirst rest i

/-- `[...subscriptions].sort((a, b) => (b.options.priority || 0) - (a.options.priority || 0))`:
JS `Array.prototype.sort` is stable, so this is the stable descending-priority
sort, embedded as stable insertion sort (an element is placed before the first
element of not-larger priority). -/
def insertByPriority (s : MessageSubscription) :
    List MessageSubscription → List MessageSubscription
  | [] => [s]
  | t :: ts =>
      if t.priority ≤ s.priority then s :: t :: ts else t :: insertByPriority s ts

/-- The sorted subscription snapshot (`sortedSubscriptions`). -/
def sortByPriorityDesc : List MessageSubscription → List MessageSubscription
  | [] => []
  | s :: ss => insertByPriority s (sortByPriorityDesc ss)

/-- The per-subscription filter step: no filter keeps the subscription, a
filter that returns `false` or throws (logged) drops it. -/
def filterPasses (s : MessageSubscription) : Bool :=
  match s.filter with
  | none => true
  | some .accepts => true
  | some .rejects => false
  | some .throws => false

/-- Whether the handler invocation completed without error. -/
def handlerOk (s : MessageSubscription) : Bool :=
  match s.handler with
  | .succeeds => true
  | .fails => false

/-- The sequential delivery loop over the sorted, filtered subscriptions.
Accumulates `processedCount`, the `unsubscribeIds` recorded for successful
`once` subscriptions, and the invocation trace (ids in invocation order).  A
handler failure is caught in the loop body: it adds nothing to the count and
the loop continues with the next subscriber. -/
def deliverLoop : List MessageSubscription → Nat → List Nat → List Nat →
    Nat × List Nat × List Nat
  | [], count, rm, tr => (count, rm, tr)
  | s :: rest, count, rm, tr =>
      match s.handler with
      | .succeeds =>
          deliverLoop rest (count + 1) (if s.once then rm ++ [s.id] else rm) (tr ++ [s.id])
      | .fails =>
          deliverLoop rest count rm (tr ++ [s.id])

/-- `publishMessage`: snapshot-sort the type's subscriptions, filter them, run
the delivery loop, then unsubscribe the recorded once-ids.  Returns the new
bus, the resolved `processedCount`, and the invocation trace. -/
def publishMessage (b : MessageBus) : MessageBus × Nat × List Nat :=
  let filtered := (sortByPriorityDesc b.subs).filter filterPasses
  let r := deliverLoop filtered 0 [] []
  let newSubs := r.2.1.foldl unsubscribeFirst b.subs
  ({ b with subs := newSubs }, r.1, r.2.2)

end MessageBus

namespace MessageBus

/-- The delivery-order relation of the claim: strictly larger priority first,
and between equal priorities the earlier registration (smaller id) first. -/
def DeliveredBefore (a b : MessageSubscription) : Prop :=
  b.priority < a.priority ∨ (a.priority = b.priority ∧ a.id < b.id)

instance : DecidableRel DeliveredBefore := fun a b => by
  unfold DeliveredBefore
  infer_instance

end MessageBus
namespace MessageBus

/-- The subscriptions a given publish will actually invoke, in invocation
order: the stable-sorted snapshot, restricted to those passing their filter. -/
def deliveredList (b : MessageBus) : List MessageSubscription :=
  (sortByPriorityDesc b.subs).filter filterPasses

/-- A demonstration bus: five subscriptions of one type, in registration
order (ids 0..4), with duplicate priorities, a throwing filter, a failing
handler, and `once` flags. -/
def demoBus : MessageBus :=
  { subs := [
      { id := 0, priority := 1, once := false, filter := none, handler := .succeeds },
      { id := 1, priority := 5, once := true, filter := none, handler := .fails },
      { id := 2, priority := 1, once := true, filter := none, handler := .succeeds },
      { id := 3, priority := 0, once := false, filter := some .throws, handler := .succeeds },
      { id := 4, priority := 5, once := false, filter := some .accepts, handler := .succeeds }],
    subscriptionIdCounter := 5 }

/-- A bus holding a single `once` subscription whose handler throws. -/
def onceFailBus : MessageBus :=
  { subs := [{ id := 0, priority := 0, once := true, filter := none, handler := .fails }],
    subscriptionIdCounter := 1 }

end MessageBus
/-! ## Plugin manager (`src/utils/plugin/PluginManager.ts`)

A plugin instance is embedded by the data the manager reads from it: its
declared dependencies (`getDependencies?.() || []`), the result of its
availability check, the behaviour of its optional lifecycle hooks (complete,
or throw with a stringified error), and its declared capabilities.  Observable
effects of a call are returned alongside the new state: the lifecycle events
published on the message bus (in publish order) and the plugin hooks invoked
(in invocation order).  A hook error re-thrown per configuration is an
`Except.error` carrying the error string. -/

/-- One entry of `getDependencies()` (the `version` range is ignored by the
manager's dependency check and therefore not modelled). -/
structure PluginDependency where
  name : String
  required : Bool
deriving DecidableEq, Repr

/-- What an optional lifecycle hook does when invoked. -/
inductive HookBehavior where
  | ok
  | throws (err : String)
deriving DecidableEq, Repr

/-- The face of an `IPlugin` instance as seen by the manager.  `isAvailable`
is the (settled) result of the plugin's availability check. -/
structure Plugin where
  name : String
  deps : List PluginDependency
  isAvailable : Bool
  onActivate : Option HookBehavior
  onDeactivate : Option HookBehavior
  capabilities : Option (List String)
deriving DecidableEq, Repr

/-- The lifecycle events of `PluginLifecycleEvents`, with the payload fields
the claims are about (`pluginName`, `error`, `capabilities`). -/
inductive LifecycleEvent where
  | beforeActivate (pluginName : String)
  | activated (pluginName : String) (capabilities : Option (List String))
  | activationFailed (pluginName : String) (error : String)
  | beforeDeactivate (pluginName : String)
  | deactivated (pluginName : String)
  | deactivationFailed (pluginName : String) (error : String)
deriving DecidableEq, Repr

/-- A recorded invocation of a plugin lifecycle hook. -/
inductive HookCall where
  | activateHook (pluginName : String)
  | deactivateHook (pluginName : String)
deriving DecidableEq, Repr

/-- `PluginManager` state: the plugin registry (insertion-ordered map), the
active set (insertion-ordered), and the two error-propagation flags of
`PluginManagerConfig` (both default `false`). -/
structure PluginManager where
  plugins : List (String × Plugin)
  activePlugins : List String
  throwOnActivationError : Bool
  throwOnDeactivationError : Bool
deriving DecidableEq, Repr

namespace PluginManager

/-- `this.plugins.get(name)`. -/
def lookupPlugin : List (String × Plugin) → String → Option Plugin
  | [], _ => none
  | (k, v) :: rest, name => if k = name then some v else lookupPlugin rest name

/-- `this.plugins.delete(name)`. -/
def removePlugin : List (String × Plugin) → String → List (String × Plugin)
  | [], _ => []
  | (k, v) :: rest, name =>
      if k = name then rest else (k, v) :: removePlugin rest name

/-- `Set.add`: append if not already present. -/
def setAdd (l : List String) (x : String) : List String :=
  if x ∈ l then l else l ++ [x]

/-- The messages collected for missing required dependencies: for each
declared dependency not in the active set whose `required` flag is set,
`Dependency "<name>" is not activated`. -/
def missingRequired (deps : List PluginDependency) (active : List String) : List String :=
  (deps.filter (fun d => !(active.contains d.name) && d.required)).map
    (fun d => "Dependency \"" ++ d.name ++ "\" is not activated")

/-- `activate(name)`.  Returns the new state, the published lifecycle events,
the plugin hooks invoked, and the outcome: `.ok result` for a normal return,
`.error e` when a hook error is re-thrown per configuration. -/
def activate (pm : PluginManager) (name : String) :
    PluginManager × List LifecycleEvent × List HookCall × Except String Bool :=
  match lookupPlugin pm.plugins name with
  | none => (pm, [], [], .ok false)
  | some plugin =>
      let ev0 : List LifecycleEvent := [.beforeActivate name]
      let hc0 : List HookCall :=
        if name ∈ pm.activePlugins ∧ plugin.onDeactivate.isSome then
          [.deactivateHook name]
        else []
      let missing := missingRequired plugin.deps pm.activePlugins
      if missing ≠ [] then
        (pm, ev0 ++ [.activationFailed name (String.intercalate "; " missing)],
          hc0, .ok false)
      else if plugin.isAvailable = false then
        (pm, ev0 ++ [.activationFailed name ("Plugin \"" ++ name ++ "\" is not available")],
          hc0, .ok false)
      else
        match plugin.onActivate with
        | some (.throws err) =>
            let ev1 := ev0 ++ [.activationFailed name ("onActivate hook failed: " ++ err)]
            let hc1 := hc0 ++ [.activateHook name]
            if pm.throwOnActivationError then
              (pm, ev1, hc1, .error err)
            else
              let pm1 := { pm with activePlugins := setAdd pm.activePlugins name }
              (pm1, ev1 ++ [.activated name plugin.capabilities], hc1, .ok true)
        | some .ok =>
            let pm1 := { pm with activePlugins := setAdd pm.activePlugins name }
            (pm1, ev0 ++ [.activated name plugin.capabilities],
              hc0 ++ [.activateHook name], .ok true)
        | none =>
            let pm1 := { pm with activePlugins := setAdd pm.activePlugins name }
            (pm1, ev0 ++ [.activated name plugin.capabilities], hc0, .ok true)

/-- `deactivate(name)`. -/
def deactivate (pm : PluginManager) (name : String) :
    PluginManager × List LifecycleEvent × List HookCall × Except String Bool :=
  match lookupPlugin pm.plugins name with
  | none => (pm, [], [], .ok false)
  | some plugin =>
      if name ∉ pm.activePlugins then
        (pm, [], [], .ok false)
      else
        let ev0 : List LifecycleEvent := [.beforeDeactivate name]
        match plugin.onDeactivate with
        | some (.throws err) =>
            let ev1 := ev0 ++ [.deactivationFailed name ("onDeactivate hook failed: " ++ err)]
            if pm.throwOnDeactivationError then
              (pm, ev1, [.deactivateHook name], .error err)
            else
              let pm1 := { pm with activePlugins := pm.activePlugins.erase name }
              (pm1, ev1 ++ [.deactivated name], [.deactivateHook name], .ok true)
        | some .ok =>
            let pm1 := { pm with activePlugins := pm.activePlugins.erase name }
            (pm1, ev0 ++ [.deactivated name], [.deactivateHook name], .ok true)
        | none =>
            let pm1 := { pm with activePlugins := pm.activePlugins.erase name }
            (pm1, ev0 ++ [.deactivated name], [], .ok true)

/-- `unregister(name)`: invokes the deactivation hook whenever the plugin
exposes one (the source checks only `plugin.onDeactivate`, not the active
set), then removes the plugin from registry and active set.  Publishes no
lifecycle event.  A hook error is re-thrown per configuration, in which case
the removal is not reached. -/
def unregister (pm : PluginManager) (name : String) :
    PluginManager × List HookCall × Except String Unit :=
  match lookupPlugin pm.plugins name with
  | none => (pm, [], .ok ())
  | some plugin =>
      match plugin.onDeactivate with
      | some (.throws err) =>
          if pm.throwOnDeactivationError then
            (pm, [.deactivateHook name], .error err)
          else
            let pm1 := { pm with plugins := removePlugin pm.plugins name,
                                 activePlugins := pm.activePlugins.erase name }
            (pm1, [.deactivateHook name], .ok ())
      | some .ok =>
          let pm1 := { pm with plugins := removePlugin pm.plugins name,
                               activePlugins := pm.activePlugins.erase name }
          (pm1, [.deactivateHook name], .ok ())
      | none =>
          let pm1 := { pm with plugins := removePlugin pm.plugins name,
                               activePlugins := pm.activePlugins.erase name }
          (pm1, [], .ok ())

end PluginManager
namespace PluginManager

/-- Plugin `P` of the C2 scenario: requires `D`, is available, no hooks. -/
def plugDepP : Plugin :=
  { name := "P", deps := [⟨"D", true⟩], isAvailable := true,
    onActivate := none, onDeactivate := none, capabilities := none }

/-- Plugin `D` of the C2 scenario: no dependencies, available, no hooks. -/
def plugDepD : Plugin :=
  { name := "D", deps := [], isAvailable := true,
    onActivate := none, onDeactivate := none, capabilities := none }

/-- The C2 manager: `P` and `D` registered, nothing active, default config. -/
def pmDep : PluginManager :=
  { plugins := [("P", plugDepP), ("D", plugDepD)], activePlugins := [],
    throwOnActivationError := false, throwOnDeactivationError := false }

end PluginManager

namespace DIContainer

/-- `runCalls` preserves the creating stack whenever the callback does. -/
theorem runCalls_creatingStack
    (res : String → DIContainer → DIContainer × Except ResolveError Nat)
    (h : ∀ d c, ((res d c).1).creatingStack = c.creatingStack) :
    ∀ (ds : List String) (c : DIContainer),
      ((runCalls res ds c).1).creatingStack = c.creatingStack := by
  intro ds
  induction ds with
  | nil => intro c; rfl
  | cons d ds ih =>
      intro c
      simp only [runCalls]
      split
      · next c1 v heq =>
          have h1 : c1.creatingStack = c.creatingStack := by
            have := h d c
            rw [heq] at this
            exact this
          rw [ih c1, h1]
      · next c1 e heq =>
          have := h d c
          rw [heq] at this
          exact this

/-- Erasing a freshly appended element restores the original list. -/
theorem erase_append_singleton {a : String} {l : List String} (h : a ∉ l) :
    (l ++ [a]).erase a = l := by
  rw [List.erase_append_right [a] h, List.erase_cons_head, List.append_nil]

/-- The `finally`-discipline of `resolve`: the construction-stack entry pushed
for a name is always removed by the time the call exits, on success as well as
when the factory throws, so the stack is restored to its pre-call value. -/
theorem resolveFuel_creatingStack :
    ∀ (fuel : Nat) (name : String) (c : DIContainer),
      ((resolveFuel fuel name c).1).creatingStack = c.creatingStack := by
  intro fuel
  induction fuel with
  | zero => intro name c; rfl
  | succ fuel ih =>
      intro name c
      simp only [resolveFuel]
      split
      · rfl
      · next service _ =>
          by_cases hmem : name ∈ c.creatingStack
          · simp [hmem]
          · simp only [hmem, if_false]
            have hstack : ∀ (svc : ServiceMetadata),
                ((resolveFuel.constructNew (resolveFuel fuel) name svc c).1).creatingStack
                  = c.creatingStack := by
              intro svc
              simp only [resolveFuel.constructNew]
              split
              · next c2 e heq =>
                  have h2 : c2.creatingStack = c.creatingStack ++ [name] := by
                    have := runCalls_creatingStack (resolveFuel fuel)
                      (fun d cc => ih d cc) svc.factory.calls
                      { c with creatingStack := c.creatingStack ++ [name] }
                    rw [heq] at this
                    exact this
                  simp only [h2]
                  exact erase_append_singleton hmem
              · next c2 v heq =>
                  have h2 : c2.creatingStack = c.creatingStack ++ [name] := by
                    have := runCalls_creatingStack (resolveFuel fuel)
                      (fun d cc => ih d cc) svc.factory.calls
                      { c with creatingStack := c.creatingStack ++ [name] }
                    rw [heq] at this
                    exact this
                  split <;> simp only [h2] <;> exact erase_append_singleton hmem
            split
            · rfl
            · exact hstack service
            · exact hstack service

end DIContainer


/-- C1: evaluation of the code at the failing input.  After
`registerTransient("t", factory)`, the first `resolve("t")` constructs object
`0` — and caches it, because `ServiceMetadata` carries no lifetime tag and
`resolve` caches whenever `instantiated === false`; the second `resolve("t")`
returns the very same object `0` through the cached-instance fast path,
leaving the container state untouched (in particular no fresh object is
constructed), although the claim — and the source's own doc comments on
`registerTransient` — require a distinct fresh instance per resolution. -/
theorem transient_resolve_returns_cached_instance :
    (DIContainer.resolveFuel 10 "t" DIContainer.transientDemo).2 = .ok 0 ∧
    (DIContainer.resolveFuel 10 "t"
        (DIContainer.resolveFuel 10 "t" DIContainer.transientDemo).1).2 = .ok 0 ∧
    (DIContainer.resolveFuel 10 "t"
        (DIContainer.resolveFuel 10 "t" DIContainer.transientDemo).1).1 =
      (DIContainer.resolveFuel 10 "t" DIContainer.transientDemo).1 := by
  refine ⟨by decide, by decide, by decide⟩

/-- C7: with `"A"` and `"B"` registered so that each factory resolves the
other, `resolve("A")` throws a circular-dependency error whose message
contains the cycle `A -> B -> A`, the creating stack is empty again after the
failed call, and in general every `resolve` call — succeeding or throwing —
restores the creating stack to its pre-call value. -/
theorem resolve_circular_cycle_reported_and_stack_released :
    ((DIContainer.resolveFuel 10 "A" DIContainer.circularDemo).2 =
        .error (.circularDependency "Circular dependency detected: A -> B -> A")) ∧
    ("A -> B -> A".toList <:+: "Circular dependency detected: A -> B -> A".toList) ∧
    ((DIContainer.resolveFuel 10 "A" DIContainer.circularDemo).1).creatingStack = [] ∧
    (∀ (fuel : Nat) (name : String) (c : DIContainer),
      ((DIContainer.resolveFuel fuel name c).1).creatingStack = c.creatingStack) := by
  refine ⟨by decide, by decide, by decide, DIContainer.resolveFuel_creatingStack⟩

namespace MessageBus

/-- Closed form of the delivery loop: the count rises by one per
filtered-in subscriber whose handler completed, the removal list collects the
successful `once` subscribers, and the trace visits every subscriber in list
order — a failing handler never stops the loop. -/
theorem deliverLoop_spec :
    ∀ (l : List MessageSubscription) (count : Nat) (rm tr : List Nat),
      deliverLoop l count rm tr =
        (count + (l.filter handlerOk).length,
         rm ++ (l.filter (fun s => handlerOk s && s.once)).map (fun s => s.id),
         tr ++ l.map (fun s => s.id)) := by
  intro l
  induction l with
  | nil => intro count rm tr; simp [deliverLoop]
  | cons s rest ih =>
      intro count rm tr
      cases hh : s.handler with
      | succeeds =>
          cases ho : s.once with
          | true =>
              simp [deliverLoop, hh, ih, handlerOk, List.filter, ho,
                Nat.add_comm, Nat.add_assoc, Nat.add_left_comm]
          | false =>
              simp [deliverLoop, hh, ih, handlerOk, List.filter, ho,
                Nat.add_comm, Nat.add_assoc, Nat.add_left_comm]
      | fails =>
          simp [deliverLoop, hh, ih, handlerOk, List.filter]

/-- Membership through the stable insertion step. -/
theorem mem_insertByPriority {t s : MessageSubscription} {l : List MessageSubscription} :
    t ∈ insertByPriority s l ↔ t = s ∨ t ∈ l := by
  induction l with
  | nil => simp [insertByPriority]
  | cons u us ih =>
      by_cases h : u.priority ≤ s.priority
      · simp only [insertByPriority, h, if_true, List.mem_cons]
      · simp only [insertByPriority, h, if_false, List.mem_cons, ih]
        tauto

/-- The sort is a permutation in particular: membership is preserved. -/
theorem mem_sortByPriorityDesc {t : MessageSubscription} {l : List MessageSubscription} :
    t ∈ sortByPriorityDesc l ↔ t ∈ l := by
  induction l with
  | nil => simp [sortByPriorityDesc]
  | cons s ss ih =>
      simp [sortByPriorityDesc, mem_insertByPriority, ih]


/-- Inserting an element registered before every element of an ordered list
keeps the list ordered. -/
theorem pairwise_insertByPriority {s : MessageSubscription} {l : List MessageSubscription}
    (hl : l.Pairwise DeliveredBefore) (hid : ∀ t ∈ l, s.id < t.id) :
    (insertByPriority s l).Pairwise DeliveredBefore := by
  induction l with
  | nil => simp [insertByPriority]
  | cons t ts ih =>
      rcases List.pairwise_cons.mp hl with ⟨ht, hts⟩
      by_cases h : t.priority ≤ s.priority
      · simp only [insertByPriority, h, if_true]
        refine List.pairwise_cons.mpr ⟨?_, hl⟩
        intro u hu
        rcases List.mem_cons.mp hu with rfl | hu2
        · rcases lt_or_eq_of_le h with hlt | heq
          · exact Or.inl hlt
          · exact Or.inr ⟨heq.symm, hid u (by simp)⟩
        · have htu := ht u hu2
          have hup : u.priority ≤ t.priority := by
            rcases htu with h1 | h1
            · exact le_of_lt h1
            · exact le_of_eq h1.1.symm
          have hus : u.priority ≤ s.priority := le_trans hup h
          rcases lt_or_eq_of_le hus with hlt | heq
          · exact Or.inl hlt
          · exact Or.inr ⟨heq.symm, hid u (by simp [hu2])⟩
      · simp only [insertByPriority, h, if_false]
        refine List.pairwise_cons.mpr ⟨?_, ih hts (fun u hu => hid u (by simp [hu]))⟩
        intro u hu
        rcases mem_insertByPriority.mp hu with rfl | hu2
        · exact Or.inl (lt_of_not_le h)
        · exact ht u hu2

/-- Stability of the snapshot sort: if the subscription array lists ids in
strictly increasing (= registration) order, the sorted array is ordered by
descending priority with registration order breaking ties. -/
theorem pairwise_sortByPriorityDesc {l : List MessageSubscription}
    (h : l.Pairwise (fun a b => a.id < b.id)) :
    (sortByPriorityDesc l).Pairwise DeliveredBefore := by
  induction l with
  | nil => simp [sortByPriorityDesc]
  | cons s ss ih =>
      rcases List.pairwise_cons.mp h with ⟨hs, hss⟩
      exact pairwise_insertByPriority (ih hss)
        (fun t ht => hs t (mem_sortByPriorityDesc.mp ht))

end MessageBus

/-- C3: in any single publish over subscriptions listed in registration order
(strictly increasing ids), the invocation trace is exactly the sorted,
filtered snapshot in order, and that order is strictly descending by priority
with equal priorities delivered in registration order. -/
theorem publish_order_priority_then_registration :
    ∀ b : MessageBus, b.subs.Pairwise (fun a b => a.id < b.id) →
      ((MessageBus.publishMessage b).2.2 =
          (MessageBus.deliveredList b).map (fun s => s.id)) ∧
      (MessageBus.deliveredList b).Pairwise MessageBus.DeliveredBefore := by
  intro b hb
  constructor
  · simp [MessageBus.publishMessage, MessageBus.deliverLoop_spec, MessageBus.deliveredList]
  · exact List.Pairwise.sublist (List.filter_sublist _)
      (MessageBus.pairwise_sortByPriorityDesc hb)

/-- Witness for C3 at the demonstration bus. -/
theorem publish_order_priority_then_registration_witness :
    (MessageBus.demoBus.subs.Pairwise (fun a b => a.id < b.id)) ∧
    (((MessageBus.publishMessage MessageBus.demoBus).2.2 =
        (MessageBus.deliveredList MessageBus.demoBus).map (fun s => s.id)) ∧
      (MessageBus.deliveredList MessageBus.demoBus).Pairwise MessageBus.DeliveredBefore) :=
  ⟨by decide, publish_order_priority_then_registration MessageBus.demoBus (by decide)⟩

/-- C4: every publish attempts every sorted, filtered subscriber — a thrown
handler error (or timeout, which the loop converts to the same failure) never
prevents the invocation of the subscribers after it — the call always resolves
(the embedding is a total function), and the resolved count is exactly the
number of subscribers whose handler completed without error. -/
theorem publish_attempts_all_and_counts_successes :
    ∀ b : MessageBus,
      ((MessageBus.publishMessage b).2.2 =
          (MessageBus.deliveredList b).map (fun s => s.id)) ∧
      (MessageBus.publishMessage b).2.1 =
        ((MessageBus.deliveredList b).filter MessageBus.handlerOk).length := by
  intro b
  constructor
  · simp [MessageBus.publishMessage, MessageBus.deliverLoop_spec, MessageBus.deliveredList]
  · simp [MessageBus.publishMessage, MessageBus.deliverLoop_spec, MessageBus.deliveredList]

namespace MessageBus

/-- With pairwise-distinct ids, splicing out the first match equals filtering
the id away. -/
theorem unsubscribeFirst_eq_filter :
    ∀ (subs : List MessageSubscription),
      subs.Pairwise (fun a b => a.id ≠ b.id) →
      ∀ i : Nat, unsubscribeFirst subs i = subs.filter (fun s => s.id != i) := by
  intro subs
  induction subs with
  | nil => intro _ _; rfl
  | cons s rest ih =>
      intro hp i
      rcases List.pairwise_cons.mp hp with ⟨hs, hrest⟩
      by_cases h : s.id = i
      · subst h
        simp only [unsubscribeFirst, if_pos rfl, List.filter_cons, bne_self_eq_false,
          Bool.false_eq_true, if_false]
        exact (List.filter_eq_self.mpr (fun t ht => by
          simp [bne, (hs t ht).symm])).symm
      · simp only [unsubscribeFirst, if_neg h, List.filter_cons]
        have : (s.id != i) = true := by simp [bne, h]
        rw [this, if_pos rfl, ih hrest i]

/-- Unsubscribing a list of ids one after another equals filtering all of them
away, when ids are pairwise distinct. -/
theorem foldl_unsubscribeFirst_eq_filter :
    ∀ (rm : List Nat) (subs : List MessageSubscription),
      subs.Pairwise (fun a b => a.id ≠ b.id) →
      rm.foldl unsubscribeFirst subs = subs.filter (fun s => !(rm.contains s.id)) := by
  intro rm
  induction rm with
  | nil =>
      intro subs _
      simp
  | cons i is ih =>
      intro subs hp
      have h1 : List.foldl unsubscribeFirst subs (i :: is) =
          List.foldl unsubscribeFirst (subs.filter (fun s => s.id != i)) is := by
        simp [List.foldl_cons, unsubscribeFirst_eq_filter subs hp i]
      rw [h1, ih _ (List.Pairwise.sublist (List.filter_sublist _) hp)]
      rw [List.filter_filter]
      refine List.filter_congr ?_
      intro s _
      by_cases h : s.id = i <;> simp [List.contains_cons, Bool.not_or, Bool.and_comm, h]

/-- Strictly increasing ids are in particular pairwise distinct. -/
theorem pairwise_id_ne_of_lt {l : List MessageSubscription}
    (h : l.Pairwise (fun a b => a.id < b.id)) :
    l.Pairwise (fun a b => a.id ≠ b.id) :=
  h.imp (fun hab => Nat.ne_of_lt hab)

/-- Two members of a distinct-id list with the same id are the same record. -/
theorem eq_of_mem_of_id_eq {l : List MessageSubscription}
    (h : l.Pairwise (fun a b => a.id < b.id))
    {s t : MessageSubscription} (hs : s ∈ l) (ht : t ∈ l) (hid : s.id = t.id) :
    s = t := by
  by_contra hne
  exact ((pairwise_id_ne_of_lt h).forall (fun a b hab => hab.symm) hs ht hne) hid

/-- The invocation trace of a publish is the sorted, filtered snapshot. -/
theorem publishMessage_trace (b : MessageBus) :
    (publishMessage b).2.2 = (deliveredList b).map (fun s => s.id) := by
  simp [publishMessage, deliverLoop_spec, deliveredList]

/-- The subscriptions surviving a publish, as a filter over the original
array: exactly the subscriptions that were not delivered successfully with
`once` set get kept. -/
theorem publishMessage_subs (b : MessageBus)
    (hb : b.subs.Pairwise (fun a b => a.id < b.id)) :
    (publishMessage b).1.subs = b.subs.filter
      (fun s => !(((deliveredList b).filter
          (fun t => handlerOk t && t.once)).map (fun t => t.id)).contains s.id) := by
  have hne := pairwise_id_ne_of_lt hb
  simp only [publishMessage, deliverLoop_spec, List.nil_append]
  exact foldl_unsubscribeFirst_eq_filter _ b.subs hne

end MessageBus

/-- C5 counterexample: a `once` subscription whose handler throws.  The first
publish attempts it (trace `[0]`), yet the subscription survives unchanged,
and a second publish of the same type invokes its handler again — the
unsubscribe of a `once` subscription is only recorded in the success branch of
the delivery loop. -/
theorem once_subscription_kept_when_handler_throws :
    ((MessageBus.publishMessage MessageBus.onceFailBus).2.2 = [0]) ∧
    ((MessageBus.publishMessage MessageBus.onceFailBus).1.subs =
      MessageBus.onceFailBus.subs) ∧
    ((MessageBus.publishMessage
        (MessageBus.publishMessage MessageBus.onceFailBus).1).2.2 = [0]) := by
  refine ⟨by decide, by decide, by decide⟩

/-- C5 as amended: after a publish, a subscription is removed exactly when it
was marked `once`, passed its filter, and its handler completed without error;
a `once` subscriber that failed (or was filtered out) remains subscribed.  The
removed ones are not invoked by a second publish of the same type. -/
theorem once_removed_iff_delivered_successfully :
    ∀ b : MessageBus, b.subs.Pairwise (fun a b => a.id < b.id) →
      (∀ s : MessageSubscription,
        s ∈ (MessageBus.publishMessage b).1.subs ↔
          (s ∈ b.subs ∧
            ¬(MessageBus.filterPasses s = true ∧ s.once = true ∧
              MessageBus.handlerOk s = true))) ∧
      (∀ s ∈ b.subs, MessageBus.filterPasses s = true → s.once = true →
        MessageBus.handlerOk s = true →
        s.id ∉ (MessageBus.publishMessage (MessageBus.publishMessage b).1).2.2) := by
  intro b hb
  have hsubs := MessageBus.publishMessage_subs b hb
  have hin : ∀ s : MessageSubscription, s ∈ b.subs →
      ((s.id ∈ ((MessageBus.deliveredList b).filter
          (fun t => MessageBus.handlerOk t && t.once)).map (fun t => t.id)) ↔
        (MessageBus.filterPasses s = true ∧ s.once = true ∧
          MessageBus.handlerOk s = true)) := by
    intro s hs
    constructor
    · intro hmem
      rcases List.mem_map.mp hmem with ⟨t, htf, hid⟩
      rcases List.mem_filter.mp htf with ⟨htd, htP⟩
      rcases List.mem_filter.mp htd with ⟨hts, htpass⟩
      have htb : t ∈ b.subs := MessageBus.mem_sortByPriorityDesc.mp hts
      have : t = s := MessageBus.eq_of_mem_of_id_eq hb htb hs hid
      subst this
      have htP2 : MessageBus.handlerOk t = true ∧ t.once = true := by
        simpa using htP
      exact ⟨htpass, htP2.2, htP2.1⟩
    · rintro ⟨hpass, honce, hok⟩
      have hsort : s ∈ MessageBus.sortByPriorityDesc b.subs :=
        MessageBus.mem_sortByPriorityDesc.mpr hs
      have hdel : s ∈ MessageBus.deliveredList b := List.mem_filter.mpr ⟨hsort, hpass⟩
      have hfil : s ∈ (MessageBus.deliveredList b).filter
          (fun t => MessageBus.handlerOk t && t.once) :=
        List.mem_filter.mpr ⟨hdel, by rw [hok, honce]; rfl⟩
      exact List.mem_map.mpr ⟨s, hfil, rfl⟩
  have hmem_iff : ∀ s : MessageSubscription,
      s ∈ (MessageBus.publishMessage b).1.subs ↔
        (s ∈ b.subs ∧
          ¬(MessageBus.filterPasses s = true ∧ s.once = true ∧
            MessageBus.handlerOk s = true)) := by
    intro s
    rw [hsubs]
    rw [List.mem_filter]
    constructor
    · rintro ⟨hs, hcond⟩
      refine ⟨hs, ?_⟩
      intro htriple
      have : s.id ∈ ((MessageBus.deliveredList b).filter
          (fun t => MessageBus.handlerOk t && t.once)).map (fun t => t.id) :=
        (hin s hs).mpr htriple
      simp [this] at hcond
    · rintro ⟨hs, hnot⟩
      refine ⟨hs, ?_⟩
      have : s.id ∉ ((MessageBus.deliveredList b).filter
          (fun t => MessageBus.handlerOk t && t.once)).map (fun t => t.id) :=
        fun hmem => hnot ((hin s hs).mp hmem)
      simp [this]
  refine ⟨hmem_iff, ?_⟩
  intro s hs hpass honce hok hmem2
  rw [MessageBus.publishMessage_trace] at hmem2
  rcases List.mem_map.mp hmem2 with ⟨t, htd, hid⟩
  rcases List.mem_filter.mp htd with ⟨hts, _⟩
  have htb1 : t ∈ (MessageBus.publishMessage b).1.subs :=
    MessageBus.mem_sortByPriorityDesc.mp hts
  have htb : t ∈ b.subs := ((hmem_iff t).mp htb1).1
  have : t = s := MessageBus.eq_of_mem_of_id_eq hb htb hs hid
  subst this
  exact ((hmem_iff t).mp htb1).2 ⟨hpass, honce, hok⟩

/-- Witness for the amended C5 at the demonstration bus. -/
theorem once_removed_iff_delivered_successfully_witness :
    (MessageBus.demoBus.subs.Pairwise (fun a b => a.id < b.id)) ∧
    ((∀ s : MessageSubscription,
        s ∈ (MessageBus.publishMessage MessageBus.demoBus).1.subs ↔
          (s ∈ MessageBus.demoBus.subs ∧
            ¬(MessageBus.filterPasses s = true ∧ s.once = true ∧
              MessageBus.handlerOk s = true))) ∧
      (∀ s ∈ MessageBus.demoBus.subs, MessageBus.filterPasses s = true →
        s.once = true → MessageBus.handlerOk s = true →
        s.id ∉ (MessageBus.publishMessage
          (MessageBus.publishMessage MessageBus.demoBus).1).2.2)) :=
  ⟨by decide, once_removed_iff_delivered_successfully MessageBus.demoBus (by decide)⟩


namespace PluginManager

/-- Adding an element to a set makes it a member. -/
theorem mem_setAdd_self (l : List String) (x : String) : x ∈ setAdd l x := by
  unfold setAdd
  split
  · assumption
  · simp

/-- `activate` never touches the plugin registry or the configuration flags. -/
theorem activate_preserves_registry (pm : PluginManager) (n : String) :
    (activate pm n).1.plugins = pm.plugins ∧
    (activate pm n).1.throwOnActivationError = pm.throwOnActivationError ∧
    (activate pm n).1.throwOnDeactivationError = pm.throwOnDeactivationError := by
  simp only [activate]
  split
  · exact ⟨rfl, rfl, rfl⟩
  · split
    · exact ⟨rfl, rfl, rfl⟩
    · split
      · exact ⟨rfl, rfl, rfl⟩
      · split
        · split
          · exact ⟨rfl, rfl, rfl⟩
          · exact ⟨rfl, rfl, rfl⟩
        · exact ⟨rfl, rfl, rfl⟩
        · exact ⟨rfl, rfl, rfl⟩

/-- When `activate` returns `true`, the plugin is in the resulting active set. -/
theorem activate_ok_true_mem (pm : PluginManager) (n : String)
    (h : (activate pm n).2.2.2 = .ok true) :
    n ∈ (activate pm n).1.activePlugins := by
  cases hlook : lookupPlugin pm.plugins n with
  | none => simp [activate, hlook] at h
  | some plugin =>
      by_cases hmiss : missingRequired plugin.deps pm.activePlugins = []
      · by_cases hav : plugin.isAvailable = false
        · simp [activate, hlook, hmiss, hav] at h
        · cases hhook : plugin.onActivate with
          | none =>
              simp [activate, hlook, hmiss, hav, hhook]
              exact mem_setAdd_self _ _
          | some hb =>
              cases hb with
              | ok =>
                  simp [activate, hlook, hmiss, hav, hhook]
                  exact mem_setAdd_self _ _
              | throws err =>
                  by_cases hflag : pm.throwOnActivationError = true
                  · simp [activate, hlook, hmiss, hav, hhook, hflag] at h
                  · simp [activate, hlook, hmiss, hav, hhook, hflag]
                    exact mem_setAdd_self _ _
      · simp [activate, hlook, hmiss] at h

end PluginManager

namespace PluginManager

/-- If every required declared dependency is active, no missing-dependency
message is collected. -/
theorem missingRequired_eq_nil {deps : List PluginDependency} {active : List String}
    (h : ∀ d ∈ deps, d.required = true → d.name ∈ active) :
    missingRequired deps active = [] := by
  unfold missingRequired
  rw [List.map_eq_nil_iff, List.filter_eq_nil_iff]
  intro d hd
  cases hr : d.required with
  | false => simp
  | true => simp [h d hd hr]

/-- A required dependency that is not active contributes its message. -/
theorem mem_missingRequired {deps : List PluginDependency} {active : List String}
    {D : String} (hdep : (⟨D, true⟩ : PluginDependency) ∈ deps) (hD : D ∉ active) :
    ("Dependency \"" ++ D ++ "\" is not activated") ∈ missingRequired deps active :=
  List.mem_map.mpr ⟨⟨D, true⟩, List.mem_filter.mpr ⟨hdep, by simp [hD]⟩, rfl⟩

/-- A name outside the key set of the registry does not resolve. -/
theorem lookupPlugin_eq_none {ps : List (String × Plugin)} {n : String}
    (h : n ∉ ps.map Prod.fst) : lookupPlugin ps n = none := by
  induction ps with
  | nil => rfl
  | cons p rest ih =>
      obtain ⟨k, v⟩ := p
      simp only [List.map_cons, List.mem_cons] at h
      push_neg at h
      simp only [lookupPlugin, if_neg (Ne.symm h.1)]
      exact ih h.2

/-- With unique registry keys, deleting a plugin makes it unresolvable. -/
theorem lookupPlugin_removePlugin {ps : List (String × Plugin)} {n : String}
    (h : (ps.map Prod.fst).Nodup) : lookupPlugin (removePlugin ps n) n = none := by
  induction ps with
  | nil => rfl
  | cons p rest ih =>
      obtain ⟨k, v⟩ := p
      simp only [List.map_cons, List.nodup_cons] at h
      by_cases hk : k = n
      · subst hk
        simp only [removePlugin, if_pos rfl]
        exact lookupPlugin_eq_none h.1
      · simp only [removePlugin, if_neg hk, lookupPlugin, if_neg hk]
        exact ih h.2

end PluginManager

/-- C9: activating a name with no registered plugin returns `false`, publishes
no lifecycle event at all, invokes no hook, and leaves the manager state — in
particular the active set — unchanged. -/
theorem activate_unregistered_silent :
    ∀ (pm : PluginManager) (n : String),
      PluginManager.lookupPlugin pm.plugins n = none →
      PluginManager.activate pm n = (pm, [], [], .ok false) := by
  intro pm n h
  simp [PluginManager.activate, h]

/-- Witness for C9: activating `"X"` on a manager that registers only `"P"`. -/
theorem activate_unregistered_silent_witness :
    (PluginManager.lookupPlugin
        ({ plugins := [("P", { name := "P", deps := [], isAvailable := true,
                               onActivate := none, onDeactivate := none,
                               capabilities := none })],
           activePlugins := ["P"], throwOnActivationError := false,
           throwOnDeactivationError := false } : PluginManager).plugins "X" = none) ∧
    (PluginManager.activate
        ({ plugins := [("P", { name := "P", deps := [], isAvailable := true,
                               onActivate := none, onDeactivate := none,
                               capabilities := none })],
           activePlugins := ["P"], throwOnActivationError := false,
           throwOnDeactivationError := false } : PluginManager) "X" =
      ({ plugins := [("P", { name := "P", deps := [], isAvailable := true,
                             onActivate := none, onDeactivate := none,
                             capabilities := none })],
         activePlugins := ["P"], throwOnActivationError := false,
         throwOnDeactivationError := false }, [], [], .ok false)) :=
  ⟨by decide, activate_unregistered_silent _ "X" (by decide)⟩

/-- C10: deactivating an active plugin whose `onDeactivate` hook throws, with
`throwOnDeactivationError` at its default `false`, still removes the plugin
from the active set, publishes `before-deactivate`, `deactivation-failed`
(with the hook error) and `deactivated`, and returns `true`. -/
theorem deactivate_failed_hook_still_deactivates :
    ∀ (pm : PluginManager) (n : String) (plugin : Plugin) (err : String),
      PluginManager.lookupPlugin pm.plugins n = some plugin →
      n ∈ pm.activePlugins →
      plugin.onDeactivate = some (.throws err) →
      pm.throwOnDeactivationError = false →
      pm.activePlugins.Nodup →
      PluginManager.deactivate pm n =
        ({ pm with activePlugins := pm.activePlugins.erase n },
         [.beforeDeactivate n,
          .deactivationFailed n ("onDeactivate hook failed: " ++ err),
          .deactivated n],
         [.deactivateHook n], .ok true) ∧
      n ∉ (PluginManager.deactivate pm n).1.activePlugins := by
  intro pm n plugin err hlook hmem hhook hflag hnd
  have h1 : PluginManager.deactivate pm n =
      ({ pm with activePlugins := pm.activePlugins.erase n },
       [.beforeDeactivate n,
        .deactivationFailed n ("onDeactivate hook failed: " ++ err),
        .deactivated n],
       [.deactivateHook n], .ok true) := by
    simp [PluginManager.deactivate, hlook, hmem, hhook, hflag]
  refine ⟨h1, ?_⟩
  rw [h1]
  exact hnd.not_mem_erase

/-- Witness for C10: an active plugin `"q"` with a throwing deactivation hook. -/
theorem deactivate_failed_hook_still_deactivates_witness :
    (PluginManager.lookupPlugin
        ({ plugins := [("q", { name := "q", deps := [], isAvailable := true,
                               onActivate := none,
                               onDeactivate := some (.throws "boom"),
                               capabilities := none })],
           activePlugins := ["q"], throwOnActivationError := false,
           throwOnDeactivationError := false } : PluginManager).plugins "q" =
      some { name := "q", deps := [], isAvailable := true, onActivate := none,
             onDeactivate := some (.throws "boom"), capabilities := none }) ∧
    ("q" ∈ (["q"] : List String)) ∧
    ((PluginManager.deactivate
        ({ plugins := [("q", { name := "q", deps := [], isAvailable := true,
                               onActivate := none,
                               onDeactivate := some (.throws "boom"),
                               capabilities := none })],
           activePlugins := ["q"], throwOnActivationError := false,
           throwOnDeactivationError := false } : PluginManager) "q").2.2.2 = .ok true) :=
  ⟨by decide, by decide, by
    have h := deactivate_failed_hook_still_deactivates
      ({ plugins := [("q", { name := "q", deps := [], isAvailable := true,
                             onActivate := none,
                             onDeactivate := some (.throws "boom"),
                             capabilities := none })],
         activePlugins := ["q"], throwOnActivationError := false,
         throwOnDeactivationError := false } : PluginManager) "q"
      { name := "q", deps := [], isAvailable := true, onActivate := none,
        onDeactivate := some (.throws "boom"), capabilities := none } "boom"
      (by decide) (by decide) (by decide) (by decide) (by decide)
    rw [h.1]⟩

/-- C6: when dependencies and availability pass but the `onActivate` hook
throws, with `throwOnActivationError` at its default `false`, the plugin is
still marked active, the events published are `before-activate`, then
`activation-failed` (with the hook error), then `activated` (with the
declared capabilities), and the call returns `true`. -/
theorem activate_hook_failure_nonfatal :
    ∀ (pm : PluginManager) (n : String) (plugin : Plugin) (err : String),
      PluginManager.lookupPlugin pm.plugins n = some plugin →
      (∀ d ∈ plugin.deps, d.required = true → d.name ∈ pm.activePlugins) →
      plugin.isAvailable = true →
      plugin.onActivate = some (.throws err) →
      pm.throwOnActivationError = false →
      (PluginManager.activate pm n).1 =
        { pm with activePlugins := PluginManager.setAdd pm.activePlugins n } ∧
      (PluginManager.activate pm n).2.1 =
        [.beforeActivate n,
         .activationFailed n ("onActivate hook failed: " ++ err),
         .activated n plugin.capabilities] ∧
      (PluginManager.activate pm n).2.2.2 = .ok true ∧
      n ∈ (PluginManager.activate pm n).1.activePlugins := by
  intro pm n plugin err hlook hdeps hav hhook hflag
  have hmiss := PluginManager.missingRequired_eq_nil hdeps
  have hav2 : ¬ plugin.isAvailable = false := by simp [hav]
  refine ⟨?_, ?_, ?_, ?_⟩
  · simp [PluginManager.activate, hlook, hmiss, hav2, hhook, hflag]
  · simp [PluginManager.activate, hlook, hmiss, hav2, hhook, hflag]
  · simp [PluginManager.activate, hlook, hmiss, hav2, hhook, hflag]
  · simp [PluginManager.activate, hlook, hmiss, hav2, hhook, hflag]
    exact PluginManager.mem_setAdd_self _ _

/-- Witness for C6: plugin `"h"` with a throwing activation hook. -/
theorem activate_hook_failure_nonfatal_witness :
    (PluginManager.lookupPlugin
        ({ plugins := [("h", { name := "h", deps := [], isAvailable := true,
                               onActivate := some (.throws "boom"),
                               onDeactivate := none,
                               capabilities := some ["cap"] })],
           activePlugins := [], throwOnActivationError := false,
           throwOnDeactivationError := false } : PluginManager).plugins "h" =
      some { name := "h", deps := [], isAvailable := true,
             onActivate := some (.throws "boom"), onDeactivate := none,
             capabilities := some ["cap"] }) ∧
    ((PluginManager.activate
        ({ plugins := [("h", { name := "h", deps := [], isAvailable := true,
                               onActivate := some (.throws "boom"),
                               onDeactivate := none,
                               capabilities := some ["cap"] })],
           activePlugins := [], throwOnActivationError := false,
           throwOnDeactivationError := false } : PluginManager) "h").2.2.2 = .ok true) ∧
    ("h" ∈ (PluginManager.activate
        ({ plugins := [("h", { name := "h", deps := [], isAvailable := true,
                               onActivate := some (.throws "boom"),
                               onDeactivate := none,
                               capabilities := some ["cap"] })],
           activePlugins := [], throwOnActivationError := false,
           throwOnDeactivationError := false } : PluginManager) "h").1.activePlugins) := by
  have h := activate_hook_failure_nonfatal
    ({ plugins := [("h", { name := "h", deps := [], isAvailable := true,
                           onActivate := some (.throws "boom"),
                           onDeactivate := none,
                           capabilities := some ["cap"] })],
       activePlugins := [], throwOnActivationError := false,
       throwOnDeactivationError := false } : PluginManager) "h"
    { name := "h", deps := [], isAvailable := true,
      onActivate := some (.throws "boom"), onDeactivate := none,
      capabilities := some ["cap"] } "boom"
    (by decide) (by simp) (by decide) (by decide) (by decide)
  exact ⟨by decide, h.2.2.1, h.2.2.2⟩

/-- C2: a plugin `P` declaring a required dependency `D` cannot activate while
`D` is inactive — the call returns `false`, leaves the state untouched, never
invokes `P`'s activation hook, and publishes exactly `before-activate`
followed by `activation-failed` whose error payload is the joined list of
missing-dependency messages, among them `D`'s; and once `activate(D)` has
returned `true`, `activate(P)` succeeds (its availability check returning
`true`, with the default non-throwing configuration). -/
theorem activate_requires_active_required_dep :
    ∀ (pm : PluginManager) (P D : String) (plugin : Plugin),
      PluginManager.lookupPlugin pm.plugins P = some plugin →
      (⟨D, true⟩ : PluginDependency) ∈ plugin.deps →
      D ∉ pm.activePlugins →
      (∀ d ∈ plugin.deps, d.required = true → d.name = D) →
      plugin.isAvailable = true →
      pm.throwOnActivationError = false →
      (((PluginManager.activate pm P).1 = pm) ∧
       ((PluginManager.activate pm P).2.2.2 = .ok false) ∧
       (HookCall.activateHook P ∉ (PluginManager.activate pm P).2.2.1) ∧
       ((PluginManager.activate pm P).2.1 =
         [.beforeActivate P,
          .activationFailed P (String.intercalate "; "
            (PluginManager.missingRequired plugin.deps pm.activePlugins))]) ∧
       (("Dependency \"" ++ D ++ "\" is not activated") ∈
         PluginManager.missingRequired plugin.deps pm.activePlugins)) ∧
      (∀ (pm' : PluginManager) (ev : List LifecycleEvent) (hc : List HookCall),
        PluginManager.activate pm D = (pm', ev, hc, .ok true) →
        ((PluginManager.activate pm' P).2.2.2 = .ok true) ∧
        (P ∈ (PluginManager.activate pm' P).1.activePlugins)) := by
  intro pm P D plugin hlook hdep hD hreq hav hflag
  have hmsg := PluginManager.mem_missingRequired hdep hD
  have hne : PluginManager.missingRequired plugin.deps pm.activePlugins ≠ [] :=
    List.ne_nil_of_mem hmsg
  constructor
  · refine ⟨?_, ?_, ?_, ?_, hmsg⟩
    · simp [PluginManager.activate, hlook, hne]
    · simp [PluginManager.activate, hlook, hne]
    · simp only [PluginManager.activate, hlook, hne]
      split <;> simp
    · simp [PluginManager.activate, hlook, hne]
  · intro pm' ev hc heq
    have hregs := PluginManager.activate_preserves_registry pm D
    rw [heq] at hregs
    have hDmem : D ∈ pm'.activePlugins := by
      have h2 := PluginManager.activate_ok_true_mem pm D (by rw [heq])
      rw [heq] at h2
      exact h2
    have hlook2 : PluginManager.lookupPlugin pm'.plugins P = some plugin := by
      rw [hregs.1]
      exact hlook
    have hflag2 : pm'.throwOnActivationError = false := by
      rw [hregs.2.1]
      exact hflag
    have hmiss2 : PluginManager.missingRequired plugin.deps pm'.activePlugins = [] :=
      PluginManager.missingRequired_eq_nil (fun d hd hr => by
        rw [hreq d hd hr]
        exact hDmem)
    have hav2 : ¬ plugin.isAvailable = false := by simp [hav]
    cases hhook : plugin.onActivate with
    | none =>
        refine ⟨?_, ?_⟩
        · simp [PluginManager.activate, hlook2, hmiss2, hav2, hhook]
        · simp [PluginManager.activate, hlook2, hmiss2, hav2, hhook]
          exact PluginManager.mem_setAdd_self _ _
    | some hb =>
        cases hb with
        | ok =>
            refine ⟨?_, ?_⟩
            · simp [PluginManager.activate, hlook2, hmiss2, hav2, hhook]
            · simp [PluginManager.activate, hlook2, hmiss2, hav2, hhook]
              exact PluginManager.mem_setAdd_self _ _
        | throws err =>
            refine ⟨?_, ?_⟩
            · simp [PluginManager.activate, hlook2, hmiss2, hav2, hhook, hflag2]
            · simp [PluginManager.activate, hlook2, hmiss2, hav2, hhook, hflag2]
              exact PluginManager.mem_setAdd_self _ _


/-- Witness for C2 at the two-plugin manager `pmDep`. -/
theorem activate_requires_active_required_dep_witness :
    (PluginManager.lookupPlugin PluginManager.pmDep.plugins "P" =
      some PluginManager.plugDepP) ∧
    ((⟨"D", true⟩ : PluginDependency) ∈ PluginManager.plugDepP.deps) ∧
    ("D" ∉ PluginManager.pmDep.activePlugins) ∧
    (∀ d ∈ PluginManager.plugDepP.deps, d.required = true → d.name = "D") ∧
    (PluginManager.plugDepP.isAvailable = true) ∧
    (PluginManager.pmDep.throwOnActivationError = false) ∧
    ((((PluginManager.activate PluginManager.pmDep "P").1 = PluginManager.pmDep) ∧
      ((PluginManager.activate PluginManager.pmDep "P").2.2.2 = .ok false) ∧
      (HookCall.activateHook "P" ∉ (PluginManager.activate PluginManager.pmDep "P").2.2.1) ∧
      ((PluginManager.activate PluginManager.pmDep "P").2.1 =
        [.beforeActivate "P",
         .activationFailed "P" (String.intercalate "; "
           (PluginManager.missingRequired PluginManager.plugDepP.deps
             PluginManager.pmDep.activePlugins))]) ∧
      (("Dependency \"" ++ "D" ++ "\" is not activated") ∈
        PluginManager.missingRequired PluginManager.plugDepP.deps
          PluginManager.pmDep.activePlugins)) ∧
     (∀ (pm' : PluginManager) (ev : List LifecycleEvent) (hc : List HookCall),
       PluginManager.activate PluginManager.pmDep "D" = (pm', ev, hc, .ok true) →
       ((PluginManager.activate pm' "P").2.2.2 = .ok true) ∧
       ("P" ∈ (PluginManager.activate pm' "P").1.activePlugins))) :=
  ⟨by decide, by decide, by decide, by decide, by decide, by decide,
    activate_requires_active_required_dep PluginManager.pmDep "P" "D"
      PluginManager.plugDepP (by decide) (by decide) (by decide) (by decide)
      (by decide) (by decide)⟩

/-- C8 counterexample: manager with plugin `"p"` registered but *inactive*,
exposing a deactivation hook.  `unregister("p")` nevertheless invokes the
hook — the source guards the call only on `plugin.onDeactivate` existing, not
on the plugin being active — refuting the claimed "if and only if active". -/
theorem unregister_invokes_hook_on_inactive_plugin :
    (("p" ∉ ({ plugins := [("p", { name := "p", deps := [], isAvailable := true,
                                   onActivate := none,
                                   onDeactivate := some .ok,
                                   capabilities := none })],
               activePlugins := [], throwOnActivationError := false,
               throwOnDeactivationError := false } : PluginManager).activePlugins)) ∧
    ((PluginManager.unregister
        ({ plugins := [("p", { name := "p", deps := [], isAvailable := true,
                               onActivate := none,
                               onDeactivate := some .ok,
                               capabilities := none })],
           activePlugins := [], throwOnActivationError := false,
           throwOnDeactivationError := false } : PluginManager) "p").2.1 =
      [HookCall.deactivateHook "p"]) := by
  refine ⟨by decide, by decide⟩

/-- C8 as amended: `unregister(name)` of a registered plugin invokes the
deactivation hook exactly when the plugin exposes one — regardless of whether
the plugin is active — and then (with `throwOnDeactivationError` at its
default `false`, so the hook error cannot abort the removal) removes the
plugin from both the registry and the active set. -/
theorem unregister_hook_iff_defined_then_removes :
    ∀ (pm : PluginManager) (n : String) (plugin : Plugin),
      PluginManager.lookupPlugin pm.plugins n = some plugin →
      pm.throwOnDeactivationError = false →
      (pm.plugins.map Prod.fst).Nodup →
      pm.activePlugins.Nodup →
      ((PluginManager.unregister pm n).2.1 =
        (if plugin.onDeactivate.isSome then [HookCall.deactivateHook n] else [])) ∧
      ((PluginManager.unregister pm n).2.2 = .ok ()) ∧
      ((PluginManager.unregister pm n).1.plugins =
        PluginManager.removePlugin pm.plugins n) ∧
      ((PluginManager.unregister pm n).1.activePlugins =
        pm.activePlugins.erase n) ∧
      (PluginManager.lookupPlugin (PluginManager.unregister pm n).1.plugins n = none) ∧
      (n ∉ (PluginManager.unregister pm n).1.activePlugins) := by
  intro pm n plugin hlook hflag hkeys hactive
  have hmain : (PluginManager.unregister pm n).2.1 =
        (if plugin.onDeactivate.isSome then [HookCall.deactivateHook n] else []) ∧
      (PluginManager.unregister pm n).2.2 = .ok () ∧
      (PluginManager.unregister pm n).1.plugins =
        PluginManager.removePlugin pm.plugins n ∧
      (PluginManager.unregister pm n).1.activePlugins = pm.activePlugins.erase n := by
    cases hhook : plugin.onDeactivate with
    | none =>
        refine ⟨?_, ?_, ?_, ?_⟩ <;>
          simp [PluginManager.unregister, hlook, hhook]
    | some hb =>
        cases hb with
        | ok =>
            refine ⟨?_, ?_, ?_, ?_⟩ <;>
              simp [PluginManager.unregister, hlook, hhook]
        | throws err =>
            refine ⟨?_, ?_, ?_, ?_⟩ <;>
              simp [PluginManager.unregister, hlook, hhook, hflag]
  refine ⟨hmain.1, hmain.2.1, hmain.2.2.1, hmain.2.2.2, ?_, ?_⟩
  · rw [hmain.2.2.1]
    exact PluginManager.lookupPlugin_removePlugin hkeys
  · rw [hmain.2.2.2]
    exact hactive.not_mem_erase

/-- Witness for the amended C8: unregistering the inactive plugin `"p"`. -/
theorem unregister_hook_iff_defined_then_removes_witness :
    (PluginManager.lookupPlugin
        ({ plugins := [("p", { name := "p", deps := [], isAvailable := true,
                               onActivate := none, onDeactivate := some .ok,
                               capabilities := none })],
           activePlugins := [], throwOnActivationError := false,
           throwOnDeactivationError := false } : PluginManager).plugins "p" =
      some { name := "p", deps := [], isAvailable := true, onActivate := none,
             onDeactivate := some .ok, capabilities := none }) ∧
    ((PluginManager.unregister
        ({ plugins := [("p", { name := "p", deps := [], isAvailable := true,
                               onActivate := none, onDeactivate := some .ok,
                               capabilities := none })],
           activePlugins := [], throwOnActivationError := false,
           throwOnDeactivationError := false } : PluginManager) "p").2.1 =
      [HookCall.deactivateHook "p"]) ∧
    (PluginManager.lookupPlugin
        (PluginManager.unregister
          ({ plugins := [("p", { name := "p", deps := [], isAvailable := true,
                                 onActivate := none, onDeactivate := some .ok,
                                 capabilities := none })],
             activePlugins := [], throwOnActivationError := false,
             throwOnDeactivationError := false } : PluginManager) "p").1.plugins "p" =
      none) := by
  have h := unregister_hook_iff_defined_then_removes
    ({ plugins := [("p", { name := "p", deps := [], isAvailable := true,
                           onActivate := none, onDeactivate := some .ok,
                           capabilities := none })],
       activePlugins := [], throwOnActivationError := false,
       throwOnDeactivationError := false } : PluginManager) "p"
    { name := "p", deps := [], isAvailable := true, onActivate := none,
      onDeactivate := some .ok, capabilities := none }
    (by decide) (by decide) (by decide) (by decide)
  refine ⟨by decide, ?_, h.2.2.2.2.1⟩
  rw [h.1]
  decide
